import Mathlib

set_option linter.unusedVariables false

/-!
Verification of the kRad geiger-counter hardware-RNG module (src/krad.c).

The development shallowly embeds the module's single-producer /
single-consumer circular buffer of `struct timespec` samples, its two
consumer read paths (`geiger_data_read`, `geiger_read`), the occupancy
report (`geiger_data_present`), the producer interrupt handler
(`geiger_isr`), and the resource-acquisition ladder of `krad_init`.
Spinlocks and memory-ordering annotations of the source are not part of
the sequential embedding; each entry point is modelled as the state
transformation its body performs.
-/

namespace Krad

/-- Size in bytes of `struct timespec` on the 64-bit target: two
64-bit `long` fields (`tv_sec`, `tv_nsec`). -/
def sizeofTimespec : ℕ := 16

/-- Source: `#define BUFFER_SIZE (PAGE_SIZE / sizeof(struct timespec))`
with the target page size of 4096 bytes: 256 slots, a power of two. -/
def BUFFER_SIZE : ℕ := 256

/-- Model of `struct timespec`: seconds and nanoseconds, both machine
`long`s (signed). -/
structure Timespec where
  tv_sec : Int
  tv_nsec : Int
deriving DecidableEq

/-- The module's mutable state: the backing page `buffer` (slots
addressed by plain array index, as in the C), and the two cursors
`buffer_head`, `buffer_tail`.  The cursors are unconstrained `ℕ` so
that the range invariant `head, tail < BUFFER_SIZE` is a proved
property of the reachable states, not a typing artifact. -/
structure KradState where
  buffer : ℕ → Timespec
  buffer_head : ℕ
  buffer_tail : ℕ

/-- Source: `CIRC_CNT(head, tail, BUFFER_SIZE)` from `linux/circ_buf.h`,
i.e. `(head - tail) & (BUFFER_SIZE - 1)` in twos-complement `int`
arithmetic.  Because `BUFFER_SIZE` is a power of two dividing `2^32`,
masking the (possibly negative) difference yields the mathematical
residue of `head - tail` modulo `BUFFER_SIZE`. -/
def circ_cnt (head tail : ℕ) : ℕ :=
  (((head : ℤ) - (tail : ℤ)) % (BUFFER_SIZE : ℤ)).toNat

/-- Source: `CIRC_SPACE(head, tail, BUFFER_SIZE)`, defined in
`linux/circ_buf.h` as `CIRC_CNT(tail, head + 1, BUFFER_SIZE)`. -/
def circ_space (head tail : ℕ) : ℕ := circ_cnt tail (head + 1)

/-- Occupancy: the live-sample count, exactly as every entry point of
the source computes it from the two cursors. -/
def occupancy (s : KradState) : ℕ := circ_cnt s.buffer_head s.buffer_tail

/-- Abstraction function: the live samples in FIFO (oldest-first)
order, i.e. the slots in the cyclic index range `[tail, head)`. -/
def liveList (s : KradState) : List Timespec :=
  (List.range (occupancy s)).map (fun i => s.buffer ((s.buffer_tail + i) % BUFFER_SIZE))

/-- C cast of a signed `long` to `u32`: the residue modulo `2^32`. -/
def u32_of_long (n : Int) : ℕ := (n % (2 ^ 32)).toNat

/-- Model of `geiger_data_present(rng, wait)`: loads the cursors under
the consumer lock and returns
`CIRC_CNT(head, tail, BUFFER_SIZE) * sizeof(struct timespec)`.
The returned state component records that the body performs no store
to the buffer or either cursor; the `wait` argument is never read by
the body. -/
def geiger_data_present (wait : Int) (s : KradState) : ℕ × KradState :=
  (circ_cnt s.buffer_head s.buffer_tail * sizeofTimespec, s)

/-- Result of `geiger_data_read`: the `u32` written through the `data`
out-pointer (`none` when the pointer is left untouched), the returned
byte count, and the state after the call. -/
structure DataReadResult where
  dataOut : Option ℕ
  ret : ℕ
  state : KradState

/-- Model of `geiger_data_read(rng, data)` (the old hwrng API): under
the consumer lock, load `head` (acquire) and `tail`; if
`CIRC_CNT(head, tail, BUFFER_SIZE) >= 1`, write the `u32` truncation of
`buffer[tail].tv_nsec` through `data`, publish
`(tail + 1) & (BUFFER_SIZE - 1)` to `buffer_tail`, and return 4;
otherwise return 0 leaving everything untouched. -/
def geiger_data_read (s : KradState) : DataReadResult :=
  let head := s.buffer_head
  let tail := s.buffer_tail
  if 1 ≤ circ_cnt head tail then
    { dataOut := some (u32_of_long (s.buffer tail).tv_nsec)
      ret := 4
      state := { s with buffer_tail := (tail + 1) &&& (BUFFER_SIZE - 1) } }
  else
    { dataOut := none, ret := 0, state := s }

/-- Result of `geiger_read`: the samples copied into the caller's
buffer in index order (`data[0], data[1], ...`), whether the
"called with max bytes smaller than the storage type" diagnostic was
printed, the returned byte count, and the state after the call. -/
structure ReadResult where
  data : List Timespec
  tooSmallDiag : Bool
  ret : ℕ
  state : KradState

/-- Model of `geiger_read(rng, data, max, wait)` (the new hwrng API):
`pulses_given = min(max / sizeof(struct timespec),
CIRC_CNT(head, tail, BUFFER_SIZE))`; when `pulses_given` is zero the
diagnostic printk fires.  The copy loop runs `pulses_given` times; its
body copies `buffer[tail]` into `data[p]` and stores
`(tail + 1) & (BUFFER_SIZE - 1)` into `buffer_tail`.  The local
variable `tail` is never modified inside the loop — exactly as in the
source — so every iteration copies the same slot and publishes the
same cursor value.  Returns `pulses_given * sizeof(struct timespec)`;
`wait` is never read by the body. -/
def geiger_read (s : KradState) (max : ℕ) : ReadResult :=
  let head := s.buffer_head
  let tail := s.buffer_tail
  let pulses_given := min (max / sizeofTimespec) (circ_cnt head tail)
  { data := (List.range pulses_given).map (fun _p => s.buffer tail)
    tooSmallDiag := pulses_given == 0
    ret := pulses_given * sizeofTimespec
    state :=
      if pulses_given = 0 then s
      else { s with buffer_tail := (tail + 1) &&& (BUFFER_SIZE - 1) } }

/-- Model of `geiger_isr(irq, data)`: if the interrupt is the geiger
line, capture the current time `t` (a parameter of the model, standing
for `CURRENT_TIME`) and, under the producer lock, check
`CIRC_SPACE(head, tail, BUFFER_SIZE) >= 1`; if so, write `t` into slot
`head` and publish `(head + 1) & (BUFFER_SIZE - 1)` to `buffer_head`.
On a full buffer nothing is written and the state is unchanged. -/
def geiger_isr (irq geiger_irq : Int) (t : Timespec) (s : KradState) : KradState :=
  if irq = geiger_irq then
    let head := s.buffer_head
    let tail := s.buffer_tail
    if 1 ≤ circ_space head tail then
      { s with
        buffer := fun i => if i = head then t else s.buffer i
        buffer_head := (head + 1) &&& (BUFFER_SIZE - 1) }
    else s
  else s

/-- A producer invocation delivered on the geiger interrupt line (the
`irq == geiger_irq` test in `geiger_isr` succeeds). -/
def push (t : Timespec) (s : KradState) : KradState := geiger_isr 0 0 t s

/-- A run of producer invocations with no intervening pops. -/
def pushAll (ts : List Timespec) (s : KradState) : KradState :=
  ts.foldl (fun s t => push t s) s

/-- The state at module start: cursors zero-initialised (the static
initialisers `buffer_head = 0`, `buffer_tail = 0`); the freshly
allocated page holds arbitrary contents `buf0`. -/
def initState (buf0 : ℕ → Timespec) : KradState :=
  { buffer := buf0, buffer_head := 0, buffer_tail := 0 }

/-- One invocation of any of the module's entry points that touch the
ring buffer. -/
inductive Op where
  | isr (irq : Int) (t : Timespec)
  | dataRead
  | read (max : ℕ)
  | present (wait : Int)

/-- The state transition performed by one entry-point invocation
(`geiger_irq` is the interrupt number assigned at start-up). -/
def step (geiger_irq : Int) (o : Op) (s : KradState) : KradState :=
  match o with
  | .isr irq t => geiger_isr irq geiger_irq t s
  | .dataRead => (geiger_data_read s).state
  | .read max => (geiger_read s max).state
  | .present wait => (geiger_data_present wait s).2

/-- The state after a sequence of interleaved entry-point invocations,
starting from the zero-initialised cursors. -/
def run (geiger_irq : Int) (buf0 : ℕ → Timespec) (ops : List Op) : KradState :=
  ops.foldl (fun s o => step geiger_irq o s) (initState buf0)

/-- The resources `krad_init` acquires, in acquisition order. -/
inductive Resource where
  | page | gpio | irq | rng
deriving DecidableEq

/-- Outcomes of the fallible calls `krad_init` makes, in program order:
`__get_free_page` (non-NULL?), `gpio_request_one` (0 on success),
`gpio_to_irq` (the irq number, negative on failure), `request_irq`
(0 on success), `hwrng_register` (0 on success). -/
structure InitEnv where
  page_alloc_ok : Bool
  gpio_request_ret : Int
  gpio_to_irq_ret : Int
  request_irq_ret : Int
  hwrng_register_ret : Int
deriving DecidableEq

/-- The errno value the source returns (positive, as written) when the
page allocation fails. -/
def ENOMEM : Int := 12

/-- Model of `krad_init`: the C return value paired with the list of
resources still held when the function returns.  The failure ladder of
the source frees the irq at `fail3` and the gpio at `fail2`; the label
`fail1` only returns — no path frees the allocated page. -/
def krad_init (env : InitEnv) : Int × List Resource :=
  if ¬ env.page_alloc_ok then
    (ENOMEM, [])
  else if env.gpio_request_ret ≠ 0 then
    -- goto fail1: return ret (page still held)
    (env.gpio_request_ret, [Resource.page])
  else if env.gpio_to_irq_ret < 0 then
    -- goto fail2: gpio_free (page still held)
    (env.gpio_to_irq_ret, [Resource.page])
  else if env.request_irq_ret ≠ 0 then
    -- goto fail2: gpio_free (page still held)
    (env.request_irq_ret, [Resource.page])
  else if env.hwrng_register_ret ≠ 0 then
    -- goto fail3: free_irq, then fail2: gpio_free (page still held)
    (env.hwrng_register_ret, [Resource.page])
  else
    (0, [Resource.page, Resource.gpio, Resource.irq, Resource.rng])

/-- Concrete sample values used by witnesses and counterexamples. -/
def sampleA : Timespec := { tv_sec := 100, tv_nsec := 111 }

def sampleB : Timespec := { tv_sec := 200, tv_nsec := 222 }

def sampleC : Timespec := { tv_sec := 300, tv_nsec := 333 }

/-- A reachable state holding two samples: `sampleA` (oldest, slot 0)
then `sampleB` (slot 1); uninitialised slots read `sampleC`. -/
def twoSampleState : KradState :=
  pushAll [sampleA, sampleB] (initState (fun _i => sampleC))

/-- The empty buffer right after start-up. -/
def emptyState : KradState := initState (fun _i => sampleC)

/-- A state whose occupancy is the usable capacity `BUFFER_SIZE - 1`. -/
def fullState : KradState :=
  { buffer := fun _i => sampleC, buffer_head := BUFFER_SIZE - 1, buffer_tail := 0 }

/-! ## Helper lemmas about the ring arithmetic -/

/-- Masking by `BUFFER_SIZE - 1` is reduction modulo `BUFFER_SIZE`. -/
theorem land_mask (x : ℕ) : x &&& (BUFFER_SIZE - 1) = x % BUFFER_SIZE := by
  have h := Nat.and_pow_two_sub_one_eq_mod x 8
  norm_num at h
  simpa [BUFFER_SIZE] using h

/-- The occupancy count is always strictly below `BUFFER_SIZE`. -/
theorem circ_cnt_lt (h t : ℕ) : circ_cnt h t < BUFFER_SIZE := by
  simp only [circ_cnt, BUFFER_SIZE]
  omega

/-- Space and occupancy partition the usable capacity. -/
theorem circ_space_occ (s : KradState) :
    circ_space s.buffer_head s.buffer_tail = BUFFER_SIZE - 1 - occupancy s := by
  simp only [circ_space, circ_cnt, occupancy, BUFFER_SIZE]
  push_cast
  omega

/-- The abstraction has exactly `occupancy` samples. -/
theorem liveList_length (s : KradState) : (liveList s).length = occupancy s := by
  simp [liveList]

/-- On a buffer at usable capacity the interrupt handler is a no-op,
whatever the interrupt number. -/
theorem geiger_isr_full (irq geiger_irq : Int) (t : Timespec) (s : KradState)
    (hocc : occupancy s = BUFFER_SIZE - 1) : geiger_isr irq geiger_irq t s = s := by
  have hsp : circ_space s.buffer_head s.buffer_tail = 0 := by
    have h := circ_space_occ s
    omega

  simp [geiger_isr, hsp]

/-- A successful push appends the sample to the live sequence and
advances only the head cursor. -/
theorem push_not_full (t : Timespec) (s : KradState)
    (hh : s.buffer_head < BUFFER_SIZE) (ht : s.buffer_tail < BUFFER_SIZE)
    (hocc : occupancy s < BUFFER_SIZE - 1) :
    liveList (push t s) = liveList s ++ [t] ∧
    (push t s).buffer_head < BUFFER_SIZE ∧
    (push t s).buffer_tail = s.buffer_tail ∧
    occupancy (push t s) = occupancy s + 1 := by
  have hsp : 1 ≤ circ_space s.buffer_head s.buffer_tail := by
    have h := circ_space_occ s
    omega
  have hpush : push t s =
      { s with
        buffer := fun i => if i = s.buffer_head then t else s.buffer i
        buffer_head := (s.buffer_head + 1) &&& (BUFFER_SIZE - 1) } := by
    simp [push, geiger_isr, hsp]
  have hkey : occupancy s =
      (((s.buffer_head : ℤ) - (s.buffer_tail : ℤ)) % 256).toNat := by
    simp [occupancy, circ_cnt, BUFFER_SIZE]
  have hocc' : occupancy (push t s) = occupancy s + 1 := by
    rw [hpush]
    simp only [occupancy]
    rw [land_mask]
    simp only [circ_cnt, BUFFER_SIZE] at hocc ⊢
    omega
  refine ⟨?_, ?_, ?_, hocc'⟩
  · simp only [liveList, hocc']
    rw [hpush]
    simp only [List.range_succ, List.map_append, List.map_cons, List.map_nil]
    congr 1
    · apply List.map_congr_left
      intro i hi
      rw [List.mem_range] at hi
      have hne : ¬ ((s.buffer_tail + i) % BUFFER_SIZE = s.buffer_head) := by
        simp only [BUFFER_SIZE] at *
        omega
      simp [hne]
    · have heq : (s.buffer_tail + occupancy s) % BUFFER_SIZE = s.buffer_head := by
        simp only [BUFFER_SIZE] at *
        omega
      simp [heq]
  · rw [hpush]
    rw [land_mask]
    exact Nat.mod_lt _ (by norm_num [BUFFER_SIZE])
  · rw [hpush]

/-- Pushing a batch with no intervening pops appends the pushed prefix
that fits; once the usable capacity is reached every later sample is
dropped. -/
theorem liveList_pushAll (ts : List Timespec) (s : KradState)
    (hh : s.buffer_head < BUFFER_SIZE) (ht : s.buffer_tail < BUFFER_SIZE) :
    liveList (pushAll ts s) =
      liveList s ++ ts.take (BUFFER_SIZE - 1 - occupancy s) := by
  induction ts generalizing s with
  | nil => simp [pushAll]
  | cons t ts ih =>
    have hstep : pushAll (t :: ts) s = pushAll ts (push t s) := rfl
    have hlt : occupancy s < BUFFER_SIZE := circ_cnt_lt _ _
    by_cases hfull : occupancy s = BUFFER_SIZE - 1
    · rw [hstep, push, geiger_isr_full 0 0 t s hfull]
      rw [ih s hh ht]
      simp [hfull]
    · obtain ⟨h1, h2, h3, h4⟩ := push_not_full t s hh ht (by omega)
      rw [hstep, ih (push t s) h2 (by rw [h3]; exact ht)]
      rw [h1, h4]
      have hsplit : BUFFER_SIZE - 1 - occupancy s =
          (BUFFER_SIZE - 1 - (occupancy s + 1)) + 1 := by omega
      rw [hsplit, List.take_succ_cons, List.append_assoc]
      rfl

/-! ## Claim theorems -/

/-- Claim C1.  The claim that a `geiger_read` call dispensing `N >= 1`
samples copies `N` distinct consecutive samples in FIFO order is
violated by the source: the loop never advances its local `tail`
variable, so every iteration copies the same oldest slot.  On a
reachable state whose live FIFO contents are `[sampleA, sampleB]`
(two distinct samples), a read sized for two samples copies
`[sampleA, sampleA]` to the caller instead of `[sampleA, sampleB]`. -/
theorem geiger_read_duplicates_oldest :
    liveList twoSampleState = [sampleA, sampleB] ∧
    sampleA ≠ sampleB ∧
    (geiger_read twoSampleState (2 * sizeofTimespec)).data = [sampleA, sampleA] := by
  refine ⟨by decide, by decide, by decide⟩

/-- Claim C2.  The claim that `geiger_read` with occupancy `k` and room
for `m` samples returns `min(k, m) * sizeof(Sample)` bytes and
decreases occupancy by `min(k, m)` is half-violated: the byte count is
as claimed, but the loop publishes the same value `(tail + 1) &
(BUFFER_SIZE - 1)` to `buffer_tail` on every iteration, so occupancy
decreases by only 1.  With `k = m = 2` the call returns
`2 * sizeof(Sample)` bytes yet leaves occupancy 1, not 0. -/
theorem geiger_read_consumes_only_one :
    occupancy twoSampleState = 2 ∧
    (geiger_read twoSampleState (2 * sizeofTimespec)).ret = 2 * sizeofTimespec ∧
    occupancy (geiger_read twoSampleState (2 * sizeofTimespec)).state = 1 := by
  refine ⟨by decide, by decide, by decide⟩

/-- Claim C3.  A producer invocation on a buffer whose occupancy is the
usable capacity `BUFFER_SIZE - 1` leaves the state (head, tail, every
slot) unchanged, whatever the interrupt number and timestamp; and a
run of pushes with no pops, starting from the zero-initialised
cursors, stores exactly the first `BUFFER_SIZE - 1` samples pushed and
drops the rest — in particular, pushing `capacity() + 1` samples
stores the first `capacity()` and drops the newest. -/
theorem geiger_isr_full_noop_and_lossy :
    (∀ (irq geiger_irq : Int) (t : Timespec) (s : KradState),
        occupancy s = BUFFER_SIZE - 1 → geiger_isr irq geiger_irq t s = s) ∧
    (∀ (buf0 : ℕ → Timespec) (ts : List Timespec),
        liveList (pushAll ts (initState buf0)) = ts.take (BUFFER_SIZE - 1)) := by
  constructor
  · exact geiger_isr_full
  · intro buf0 ts
    have hinit : occupancy (initState buf0) = 0 := rfl
    have h := liveList_pushAll ts (initState buf0)
      (by norm_num [initState, BUFFER_SIZE]) (by norm_num [initState, BUFFER_SIZE])
    rw [h, hinit]
    have hnil : liveList (initState buf0) = [] := by
      have hlen := liveList_length (initState buf0)
      rw [hinit] at hlen
      exact List.length_eq_zero.mp hlen
    rw [hnil]
    rfl

/-- Witness for C3: the interrupt handler leaves a concrete full state
untouched. -/
theorem geiger_isr_full_noop_and_lossy_witness :
    geiger_isr 0 0 sampleA fullState = fullState :=
  geiger_isr_full_noop_and_lossy.1 0 0 sampleA fullState (by decide)

/-- Claim C5.  For every state, a `geiger_read` with `max` smaller than
`sizeof(struct timespec)` returns 0 bytes, copies nothing to the
caller, leaves the state (cursors and slots) unchanged, and fires the
"max bytes smaller than the storage type" diagnostic. -/
theorem geiger_read_request_too_small (s : KradState) (max : ℕ)
    (hmax : max < sizeofTimespec) :
    (geiger_read s max).ret = 0 ∧
    (geiger_read s max).data = [] ∧
    (geiger_read s max).state = s ∧
    (geiger_read s max).tooSmallDiag = true := by
  have h0 : max / sizeofTimespec = 0 := Nat.div_eq_of_lt hmax
  simp [geiger_read, h0]

/-- Witness for C5 at a concrete state and request size. -/
theorem geiger_read_request_too_small_witness :
    (geiger_read twoSampleState 7).ret = 0 ∧
    (geiger_read twoSampleState 7).data = [] ∧
    (geiger_read twoSampleState 7).state = twoSampleState ∧
    (geiger_read twoSampleState 7).tooSmallDiag = true :=
  geiger_read_request_too_small twoSampleState 7 (by decide)

/-- Claim C6.  `geiger_data_present` returns exactly
`occupancy() * sizeof(struct timespec)`, performs no store to the
cursors or the buffer, and its result does not depend on the `wait`
argument. -/
theorem geiger_data_present_reports_occupancy (wait wait' : Int) (s : KradState) :
    geiger_data_present wait s = (occupancy s * sizeofTimespec, s) ∧
    geiger_data_present wait s = geiger_data_present wait' s :=
  ⟨rfl, rfl⟩

/-- Claim C8.  The claim that every failure point of `krad_init` after
the page allocation releases all earlier-acquired resources is
violated: on each of the four later failures — gpio request, irq
mapping, irq request, hwrng registration — the function returns with
the backing page still held (no path executes `free_page`); only when
the allocation itself fails is nothing held. -/
theorem krad_init_failure_keeps_page :
    krad_init ⟨true, -16, 0, 0, 0⟩ = (-16, [Resource.page]) ∧
    krad_init ⟨true, 0, -22, 0, 0⟩ = (-22, [Resource.page]) ∧
    krad_init ⟨true, 0, 5, -16, 0⟩ = (-16, [Resource.page]) ∧
    krad_init ⟨true, 0, 5, 0, -22⟩ = (-22, [Resource.page]) ∧
    krad_init ⟨false, 0, 0, 0, 0⟩ = (ENOMEM, []) := by
  decide

/-- Claim C10.  A `geiger_read` call never copies more than
`max / sizeof(struct timespec)` samples to the caller, hence never
writes past `max` bytes of the caller's buffer. -/
theorem geiger_read_never_overruns_caller_buffer (s : KradState) (max : ℕ) :
    (geiger_read s max).data.length ≤ max / sizeofTimespec ∧
    (geiger_read s max).data.length * sizeofTimespec ≤ max := by
  have h1 : (geiger_read s max).data.length =
      min (max / sizeofTimespec) (circ_cnt s.buffer_head s.buffer_tail) := by
    simp [geiger_read]
  refine ⟨by rw [h1]; exact Nat.min_le_left _ _, ?_⟩
  rw [h1]
  calc min (max / sizeofTimespec) (circ_cnt s.buffer_head s.buffer_tail) * sizeofTimespec
      ≤ max / sizeofTimespec * sizeofTimespec :=
        Nat.mul_le_mul_right _ (Nat.min_le_left _ _)
    _ ≤ max := Nat.div_mul_le_self _ _

/-- Every entry point of the module keeps both cursors inside the
buffer: the only stores to a cursor publish a value masked by
`BUFFER_SIZE - 1`. -/
theorem step_preserves_bounds (geiger_irq : Int) (o : Op) (s : KradState)
    (hh : s.buffer_head < BUFFER_SIZE) (ht : s.buffer_tail < BUFFER_SIZE) :
    (step geiger_irq o s).buffer_head < BUFFER_SIZE ∧
    (step geiger_irq o s).buffer_tail < BUFFER_SIZE := by
  have hmask : ∀ x : ℕ, x &&& (BUFFER_SIZE - 1) < BUFFER_SIZE := fun x => by
    rw [land_mask]
    exact Nat.mod_lt _ (by norm_num [BUFFER_SIZE])
  cases o with
  | isr irq t =>
    simp only [step, geiger_isr]
    split
    · split
      · exact ⟨hmask _, ht⟩
      · exact ⟨hh, ht⟩
    · exact ⟨hh, ht⟩
  | dataRead =>
    simp only [step, geiger_data_read]
    split
    · exact ⟨hh, hmask _⟩
    · exact ⟨hh, ht⟩
  | read max =>
    simp only [step, geiger_read]
    split
    · exact ⟨hh, ht⟩
    · exact ⟨hh, hmask _⟩
  | present wait =>
    exact ⟨hh, ht⟩

/-- Claim C4.  After any sequence of interleaved entry-point
invocations from the zero-initialised cursors, both cursors lie in
`[0, BUFFER_SIZE)` and the occupancy `(head - tail) mod BUFFER_SIZE`
never exceeds `BUFFER_SIZE - 1`. -/
theorem run_preserves_cursor_invariant (geiger_irq : Int) (buf0 : ℕ → Timespec)
    (ops : List Op) :
    (run geiger_irq buf0 ops).buffer_head < BUFFER_SIZE ∧
    (run geiger_irq buf0 ops).buffer_tail < BUFFER_SIZE ∧
    occupancy (run geiger_irq buf0 ops) ≤ BUFFER_SIZE - 1 := by
  have hfold : ∀ (l : List Op) (s : KradState),
      s.buffer_head < BUFFER_SIZE → s.buffer_tail < BUFFER_SIZE →
      (l.foldl (fun s o => step geiger_irq o s) s).buffer_head < BUFFER_SIZE ∧
      (l.foldl (fun s o => step geiger_irq o s) s).buffer_tail < BUFFER_SIZE := by
    intro l
    induction l with
    | nil => intro s hh ht; exact ⟨hh, ht⟩
    | cons o l ih =>
      intro s hh ht
      obtain ⟨h1, h2⟩ := step_preserves_bounds geiger_irq o s hh ht
      exact ih _ h1 h2
  obtain ⟨h1, h2⟩ := hfold ops (initState buf0)
    (by norm_num [initState, BUFFER_SIZE]) (by norm_num [initState, BUFFER_SIZE])
  refine ⟨h1, h2, ?_⟩
  have h3 := circ_cnt_lt (run geiger_irq buf0 ops).buffer_head
    (run geiger_irq buf0 ops).buffer_tail
  simp only [occupancy, BUFFER_SIZE] at *
  omega

/-- Claim C7.  On a non-empty buffer (cursors in range, as every
reachable state has them), `geiger_data_read` writes the 32-bit
truncation of the oldest sample's `tv_nsec` through the out-pointer,
publishes `tail + 1` (masked), returns 4, and the live sequence loses
exactly its first (oldest) element — FIFO order agrees with the
variable-length path's abstraction.  On the empty buffer it returns 0
and leaves everything unchanged. -/
theorem geiger_data_read_pops_oldest (s : KradState)
    (hh : s.buffer_head < BUFFER_SIZE) (ht : s.buffer_tail < BUFFER_SIZE) :
    (1 ≤ occupancy s →
      geiger_data_read s =
        { dataOut := some (u32_of_long (s.buffer s.buffer_tail).tv_nsec)
          ret := 4
          state := { s with buffer_tail := (s.buffer_tail + 1) &&& (BUFFER_SIZE - 1) } } ∧
      occupancy (geiger_data_read s).state = occupancy s - 1 ∧
      (liveList s).head? = some (s.buffer s.buffer_tail) ∧
      liveList (geiger_data_read s).state = (liveList s).drop 1) ∧
    (occupancy s = 0 →
      geiger_data_read s = { dataOut := none, ret := 0, state := s }) := by
  constructor
  · intro hocc
    have hocc1 : 1 ≤ circ_cnt s.buffer_head s.buffer_tail := hocc
    have heq : geiger_data_read s =
        { dataOut := some (u32_of_long (s.buffer s.buffer_tail).tv_nsec)
          ret := 4
          state := { s with buffer_tail := (s.buffer_tail + 1) &&& (BUFFER_SIZE - 1) } } := by
      simp [geiger_data_read, hocc1]
    have hocc2 :
        occupancy { s with buffer_tail := (s.buffer_tail + 1) &&& (BUFFER_SIZE - 1) } =
          occupancy s - 1 := by
      simp only [occupancy]
      rw [land_mask]
      simp only [circ_cnt, BUFFER_SIZE] at hocc1 ⊢
      omega
    have hhead : (liveList s).head? = some (s.buffer s.buffer_tail) := by
      obtain ⟨n, hn⟩ : ∃ n, occupancy s = n + 1 := ⟨occupancy s - 1, by omega⟩
      simp only [liveList, hn, List.range_succ_eq_map, List.map_cons, List.head?_cons]
      rw [Nat.add_zero, Nat.mod_eq_of_lt ht]
    have hdrop2 :
        liveList { s with buffer_tail := (s.buffer_tail + 1) &&& (BUFFER_SIZE - 1) } =
          (liveList s).drop 1 := by
      rw [land_mask]
      apply List.ext_getElem
      · rw [List.length_drop, liveList_length, liveList_length]
        simp only [occupancy, circ_cnt, BUFFER_SIZE] at hocc1 ⊢
        omega
      · intro i h1 h2
        simp only [liveList, List.getElem_map, List.getElem_range, List.getElem_drop]
        congr 1
        simp only [occupancy, circ_cnt, BUFFER_SIZE] at *
        omega
    refine ⟨heq, ?_, hhead, ?_⟩
    · rw [heq]
      exact hocc2
    · rw [heq]
      exact hdrop2
  · intro hocc
    have hocc0 : circ_cnt s.buffer_head s.buffer_tail = 0 := hocc
    simp [geiger_data_read, hocc0]

/-- Witness for C7: one application on a concrete two-sample state and
one on the concrete empty state. -/
theorem geiger_data_read_pops_oldest_witness :
    (geiger_data_read twoSampleState).ret = 4 ∧
    (geiger_data_read emptyState).ret = 0 := by
  constructor
  · have h := (geiger_data_read_pops_oldest twoSampleState
      (by decide) (by decide)).1 (by decide)
    rw [h.1]
  · have h := (geiger_data_read_pops_oldest emptyState
      (by decide) (by decide)).2 (by decide)
    rw [h]

end Krad
